import Mathlib

set_option autoImplicit false

/-!
Shallow embedding of the operation dispatcher of
`src/cosmwasm/packages/wasmi-runtime/src/wasm/contract_operations.rs`
(the functions `init`, `handle`, `query`, `start_engine`, `env_to_bytes`).

External collaborators that live outside this file's source (JSON parsing,
bech32 decoding, the crypto oracle, the module cache and the metered wasm
Engine) are modelled as oracle functions collected in a `World` record; the
dispatcher is a pure function of the `World` and its byte-slice arguments.
Each dispatcher call returns the `Result`, the final value of the `used_gas`
out-parameter (threaded explicitly: the caller passes the value the cell
holds on entry), and a trace of events recording, in order, the collaborator
calls the dispatcher made and every write to `used_gas`.
-/

/-- Error kinds surfaced to the host (the `EnclaveError` variants reachable
from the dispatcher). -/
inductive EnclaveError where
  | FailedToDeserialize
  | FailedToSerialize
  | FailedTxVerification
  | FailedContractAuthentication
  | ValidationFailure
  | FailedFunctionCall
  | DecryptionError
  | EncryptionError
  deriving DecidableEq, Repr

/-- Modelled from the spec: block part of the V010 env
(`{ height : u64, time : u64, chain_id : string }`); the type itself is
outside the given source file. Machine integers are modelled as `Nat`. -/
structure BlockInfoV010 where
  height : Nat
  time : Nat
  chain_id : String
  deriving DecidableEq, Repr

/-- Modelled from the spec: message part of the V010 env
(`{ sender, sent_funds, ... }`); funds are (denom, amount) pairs. -/
structure MessageInfoV010 where
  sender : String
  sent_funds : List (String × Nat)
  deriving DecidableEq, Repr

/-- Modelled from the spec: contract part of the V010 env; `HumanAddr` is a
bech32 string. -/
structure ContractInfoV010 where
  address : String
  deriving DecidableEq, Repr

/-- Modelled from the spec: the V010 `Env` schema
`{ block, message, contract, contract_key : Option<bytes>,
contract_code_hash : hex-string }`; the type itself is outside the given
source file. Bytes are modelled as `List Nat`. -/
structure EnvV010 where
  block : BlockInfoV010
  message : MessageInfoV010
  contract : ContractInfoV010
  contract_key : Option (List Nat)
  contract_code_hash : String
  deriving DecidableEq, Repr

/-- Modelled from the spec: V016 `Timestamp`, nanoseconds since epoch. -/
structure Timestamp where
  nanos : Nat
  deriving DecidableEq, Repr

/-- Modelled from the spec: `Timestamp::from_seconds`, seconds to
nanoseconds. -/
def Timestamp.from_seconds (s : Nat) : Timestamp :=
  { nanos := s * 1000000000 }

/-- Modelled from the spec: block part of the V016 env. -/
structure BlockInfoV016 where
  height : Nat
  time : Timestamp
  chain_id : String
  deriving DecidableEq, Repr

/-- Modelled from the spec: contract part of the V016 env; `Addr` wraps the
same string the V010 `HumanAddr` held. -/
structure ContractInfoV016 where
  address : String
  code_hash : String
  deriving DecidableEq, Repr

/-- Modelled from the spec: the V016 `Env` schema
`{ block, contract }` — exactly these two parts and no others. -/
structure EnvV016 where
  block : BlockInfoV016
  contract : ContractInfoV016
  deriving DecidableEq, Repr

/-- Modelled from the spec: `SecretMessage`
`{ nonce : 32 bytes, user_public_key : 32 bytes, ciphertext : bytes }`. -/
structure SecretMessage where
  nonce : List Nat
  user_public_key : List Nat
  ciphertext : List Nat
  deriving DecidableEq, Repr

/-- Modelled from the spec: `SecretMessage::from_slice` reads the fixed
layout `nonce(32) || user_public_key(32) || ciphertext(var)` and rejects
inputs shorter than 64 bytes with a deserialization error. -/
def SecretMessage.from_slice (msg : List Nat) : Except EnclaveError SecretMessage :=
  if msg.length < 64 then
    .error .FailedToDeserialize
  else
    .ok { nonce := msg.take 32
          user_public_key := (msg.drop 32).take 32
          ciphertext := msg.drop 64 }

/-- Modelled from the spec: `SigInfo` is a host-supplied structure the
dispatcher treats as an opaque schema; only its parsed identity matters. -/
structure SigInfo where
  raw : List Nat
  deriving DecidableEq, Repr

/-- Modelled from the spec: `CanonicalAddr` wraps a byte vector
(`CanonicalAddr(Binary(Vec<u8>))`). -/
structure CanonicalAddr where
  bytes : List Nat
  deriving DecidableEq, Repr

/-- `ContractCode`: raw wasm bytes (the 32-byte digest is produced by the
`World`'s hash oracle). -/
structure ContractCode where
  code : List Nat
  deriving DecidableEq, Repr

/-- Modelled from the spec: `CONTRACT_KEY_LENGTH`; the canonical length is
64 bytes (32-byte authentication tag ‖ 32-byte encryption seed). -/
def CONTRACT_KEY_LENGTH : Nat := 64

/-- Modelled from the spec: `extract(env) -> ContractKey` reads the key the
host claims is bound to this contract from `env.contract_key`; an absent or
short key is `FailedContractAuthentication`; the first
`CONTRACT_KEY_LENGTH` bytes are the key. -/
def extract_contract_key (env : EnvV010) : Except EnclaveError (List Nat) :=
  match env.contract_key with
  | none => .error .FailedContractAuthentication
  | some k =>
    if k.length < CONTRACT_KEY_LENGTH then
      .error .FailedContractAuthentication
    else
      .ok (k.take CONTRACT_KEY_LENGTH)

/-- `CosmWasmApiVersion` of a compiled contract module. -/
inductive CosmWasmApiVersion where
  | V010
  | V016
  deriving DecidableEq, Repr

/-- `ContractOperation` passed to the engine. -/
inductive ContractOperation where
  | Init
  | Handle
  | Query
  deriving DecidableEq, Repr

/-- Hex digit character for a value `< 16` (lowercase, as `hex::encode`). -/
def hexDigit (n : Nat) : Char :=
  if n < 10 then Char.ofNat (48 + n) else Char.ofNat (87 + n)

/-- Two lowercase hex characters of one byte. -/
def hexByte (b : Nat) : List Char :=
  [hexDigit (b / 16 % 16), hexDigit (b % 16)]

/-- `hex::encode` of a byte string (lowercase). -/
def hexEncode (bs : List Nat) : String :=
  String.mk (bs.map hexByte).flatten

/-- The env value handed to the serializer for the contract: either the
(mutated) V010 env or its V016 projection, depending on the module's api
version. This is the value `env_to_bytes` JSON-encodes. -/
inductive ContractEnv where
  | v010 (e : EnvV010)
  | v016 (e : EnvV016)
  deriving DecidableEq, Repr

/-- The `contract_code_hash` / `code_hash` field of the env the contract
receives. -/
def ContractEnv.codeHash : ContractEnv → String
  | .v010 e => e.contract_code_hash
  | .v016 e => e.contract.code_hash

/-- The `contract_key` field of the env the contract receives (`none` means
the field is absent; the V016 schema has no such field at all). -/
def ContractEnv.contractKey : ContractEnv → Option (List Nat)
  | .v010 e => e.contract_key
  | .v016 _ => none

/-- The metered wasm engine, opaque except for the api version of its module
and the contract key it was constructed with; `st` is the opaque mutable
state the `World`'s engine oracles evolve. -/
structure Engine where
  st : Nat
  apiVersion : CosmWasmApiVersion
  key : List Nat
  op : ContractOperation
  nonce : List Nat
  user_public_key : List Nat
  deriving DecidableEq, Repr

/-- `InitSuccess { output, contract_key }`. -/
structure InitSuccess where
  output : List Nat
  contract_key : List Nat
  deriving DecidableEq, Repr

/-- `HandleSuccess { output }`. -/
structure HandleSuccess where
  output : List Nat
  deriving DecidableEq, Repr

/-- `QuerySuccess { output }`. -/
structure QuerySuccess where
  output : List Nat
  deriving DecidableEq, Repr

/-- Trace events: one per collaborator call the dispatcher makes, in program
order, plus one per write to the `used_gas` out-parameter.
`startEngineEv k` is emitted only when `start_engine` returns successfully,
i.e. exactly when an `Engine` value exists, and carries the contract key the
engine was keyed with. `serializeEnvEv ce` carries the env value handed to
the serializer. `parseSecretMsg bs` carries the slice given to
`SecretMessage::from_slice`. -/
inductive Event where
  | parseEnv
  | parseSig
  | parseSecretMsg (bytes : List Nat)
  | verifyParams
  | canonAddr
  | generateKey
  | extractKey
  | decryptEv
  | validateMsgEv
  | validateContractKeyEv
  | startEngineEv (key : List Nat)
  | serializeEnvEv (ce : ContractEnv)
  | writeToMemoryEv
  | entryCallEv
  | extractVectorEv
  | encryptOutputEv
  | writeUsedGasEv (g : Nat)
  deriving DecidableEq, Repr

/-- Is this event the construction of an `Engine`? -/
def Event.isStartEngine : Event → Bool
  | .startEngineEv _ => true
  | _ => false

/-- Is this event a write to `used_gas`? -/
def Event.isWriteUsedGas : Event → Bool
  | .writeUsedGasEv _ => true
  | _ => false

/-- Is this event a call to `verify_params`? -/
def Event.isVerifyParams : Event → Bool
  | .verifyParams => true
  | _ => false

/-- Is this event a call to `validate_contract_key`? -/
def Event.isValidateContractKey : Event → Bool
  | .validateContractKeyEv => true
  | _ => false

/-- Is this event a call to `SecretMessage::decrypt`? -/
def Event.isDecrypt : Event → Bool
  | .decryptEv => true
  | _ => false

/-- Is this event a wasm entry-point invocation? -/
def Event.isEntryCall : Event → Bool
  | .entryCallEv => true
  | _ => false

/-- The external collaborators of the dispatcher, as oracle functions.
Fallible engine operations return their `Result` together with the new
opaque engine state (the engine may consume gas even on a failing call). -/
structure World where
  /-- `serde_json::from_slice::<EnvV010>` -/
  parseEnvFn : List Nat → Option EnvV010
  /-- `serde_json::from_slice::<SigInfo>` -/
  parseSigFn : List Nat → Option SigInfo
  /-- `CanonicalAddr::from_human` (bech32 decode) -/
  fromHumanFn : String → Option CanonicalAddr
  /-- `ContractCode::hash` (lazy sha256 digest of the wasm bytes) -/
  hashFn : List Nat → List Nat
  /-- `generate_encryption_key(env, hash, canonical_addr_bytes)` -/
  generateKeyFn : EnvV010 → List Nat → List Nat → Except EnclaveError (List Nat)
  /-- `verify_params(sig_info, env, secret_msg)` -/
  verifyParamsFn : SigInfo → EnvV010 → SecretMessage → Except EnclaveError Unit
  /-- `SecretMessage::decrypt` (AEAD) -/
  decryptFn : SecretMessage → Except EnclaveError (List Nat)
  /-- `validate_msg(plaintext, code_hash)` -/
  validateMsgFn : List Nat → List Nat → Except EnclaveError (List Nat)
  /-- `validate_contract_key(key, canonical_addr_bytes, code)` -/
  validateContractKeyFn : List Nat → List Nat → List Nat → Bool
  /-- `create_module_instance(code)` (the module cache) -/
  createModuleFn : List Nat → Except EnclaveError Nat
  /-- api version recorded in the `ContractInstance` for a module -/
  apiVersionFn : Nat → CosmWasmApiVersion
  /-- initial opaque engine state from (context, module, gas_limit) -/
  mkEngineStateFn : Nat → Nat → Nat → Nat
  /-- JSON serialization of the env handed to the contract -/
  serializeEnvFn : ContractEnv → List Nat
  /-- `engine.write_to_memory(buffer)`: pointer result and new state -/
  writeToMemoryFn : Nat → List Nat → Except EnclaveError Nat × Nat
  /-- `engine.init(env_ptr, msg_ptr)`: vec pointer result and new state -/
  callInitFn : Nat → Nat → Nat → Except EnclaveError Nat × Nat
  /-- `engine.handle(env_ptr, msg_ptr)` -/
  callHandleFn : Nat → Nat → Nat → Except EnclaveError Nat × Nat
  /-- `engine.query(msg_ptr)` -/
  callQueryFn : Nat → Nat → Except EnclaveError Nat × Nat
  /-- `engine.extract_vector(vec_ptr)` -/
  extractVectorFn : Nat → Nat → Except EnclaveError (List Nat) × Nat
  /-- `engine.gas_used()` -/
  gasUsedFn : Nat → Nat
  /-- `encrypt_output(output, nonce, user_public_key, contract_addr)` -/
  encryptOutputFn : List Nat → List Nat → List Nat → CanonicalAddr → Except EnclaveError (List Nat)

/-- Result of one dispatcher call: the `Result`, the final value of the
`used_gas` out-parameter, and the event trace. -/
structure CallResult (α : Type) where
  result : Except EnclaveError α
  usedGas : Nat
  trace : List Event

/-- `start_engine`: obtain a module from the module cache, build the
`ContractInstance` (carrying the contract key, operation, nonce and user
public key), and wrap it in an `Engine`. Fails only when
`create_module_instance` fails. -/
def start_engine (w : World) (context : Nat) (gas_limit : Nat)
    (contract_code : ContractCode) (contract_key : List Nat)
    (operation : ContractOperation) (nonce : List Nat)
    (user_public_key : List Nat) : Except EnclaveError Engine :=
  match w.createModuleFn contract_code.code with
  | .error e => .error e
  | .ok m =>
    .ok { st := w.mkEngineStateFn context m gas_limit
          apiVersion := w.apiVersionFn m
          key := contract_key
          op := operation
          nonce := nonce
          user_public_key := user_public_key }

/-- The V010 → V016 env projection performed by `env_to_bytes` in its
`CosmWasmApiVersion::V016` arm: `height` and `chain_id` copied, `time`
converted via `Timestamp::from_seconds`, `address` copied (`Addr` wraps the
same string), `code_hash` taken from `env_v010.contract_code_hash`. -/
def envV010toV016 (e : EnvV010) : EnvV016 :=
  { block := { height := e.block.height
               time := Timestamp.from_seconds e.block.time
               chain_id := e.block.chain_id }
    contract := { address := e.contract.address
                  code_hash := e.contract_code_hash } }

/-- The env value `env_to_bytes` hands to the JSON serializer, by api
version: V010 clears `contract_key` to `None` and keeps the V010 schema;
V016 projects through `envV010toV016`. -/
def env_to_contract_env (v : CosmWasmApiVersion) (e : EnvV010) : ContractEnv :=
  match v with
  | .V010 => .v010 { e with contract_key := none }
  | .V016 => .v016 (envV010toV016 e)

/-- `env_to_bytes(engine, env_v010)`: serialize the env for the module's api
version; returns the pre-serialization value too so that theorems can speak
about what the contract receives. -/
def env_to_bytes (w : World) (engine : Engine) (e : EnvV010) :
    ContractEnv × List Nat :=
  let ce := env_to_contract_env engine.apiVersion e
  (ce, w.serializeEnvFn ce)

/-- `init(context, gas_limit, used_gas, contract, env, msg, sig_info)`,
following the source order: parse env, stamp the code hash, canonicalize the
contract address, generate the contract key, parse sig, parse the secret
message, verify params, decrypt, validate the plaintext, start the engine
(operation Init), serialize and stage env and msg, call the entry point,
extract and encrypt the output. `used_gas` is the value the out-parameter
holds on entry. -/
def init (w : World) (context : Nat) (gas_limit : Nat) (used_gas : Nat)
    (contract env msg sig_info : List Nat) : CallResult InitSuccess :=
  let contract_code : ContractCode := ⟨contract⟩
  let hash := w.hashFn contract
  match w.parseEnvFn env with
  | none => ⟨.error .FailedToDeserialize, used_gas, [.parseEnv]⟩
  | some env0 =>
    let env_v010 : EnvV010 := { env0 with contract_code_hash := hexEncode hash }
    match w.fromHumanFn env_v010.contract.address with
    | none =>
      ⟨.error .FailedToDeserialize, used_gas, [.parseEnv, .canonAddr]⟩
    | some canonical_contract_address =>
      match w.generateKeyFn env_v010 hash canonical_contract_address.bytes with
      | .error e =>
        ⟨.error e, used_gas, [.parseEnv, .canonAddr, .generateKey]⟩
      | .ok contract_key =>
        match w.parseSigFn sig_info with
        | none =>
          ⟨.error .FailedToDeserialize, used_gas,
            [.parseEnv, .canonAddr, .generateKey, .parseSig]⟩
        | some parsed_sig_info =>
          match SecretMessage.from_slice msg with
          | .error e =>
            ⟨.error e, used_gas,
              [.parseEnv, .canonAddr, .generateKey, .parseSig, .parseSecretMsg msg]⟩
          | .ok secret_msg =>
            match w.verifyParamsFn parsed_sig_info env_v010 secret_msg with
            | .error e =>
              ⟨.error e, used_gas,
                [.parseEnv, .canonAddr, .generateKey, .parseSig,
                 .parseSecretMsg msg, .verifyParams]⟩
            | .ok _ =>
              match w.decryptFn secret_msg with
              | .error e =>
                ⟨.error e, used_gas,
                  [.parseEnv, .canonAddr, .generateKey, .parseSig,
                   .parseSecretMsg msg, .verifyParams, .decryptEv]⟩
              | .ok decrypted_msg =>
                match w.validateMsgFn decrypted_msg hash with
                | .error e =>
                  ⟨.error e, used_gas,
                    [.parseEnv, .canonAddr, .generateKey, .parseSig,
                     .parseSecretMsg msg, .verifyParams, .decryptEv, .validateMsgEv]⟩
                | .ok validated_msg =>
                  match start_engine w context gas_limit contract_code contract_key
                      .Init secret_msg.nonce secret_msg.user_public_key with
                  | .error e =>
                    ⟨.error e, used_gas,
                      [.parseEnv, .canonAddr, .generateKey, .parseSig,
                       .parseSecretMsg msg, .verifyParams, .decryptEv, .validateMsgEv]⟩
                  | .ok engine =>
                    let ceb := env_to_bytes w engine env_v010
                    let t0 : List Event :=
                      [.parseEnv, .canonAddr, .generateKey, .parseSig,
                       .parseSecretMsg msg, .verifyParams, .decryptEv, .validateMsgEv,
                       .startEngineEv contract_key, .serializeEnvEv ceb.1]
                    match w.writeToMemoryFn engine.st ceb.2 with
                    | (.error e, _) =>
                      ⟨.error e, used_gas, t0 ++ [.writeToMemoryEv]⟩
                    | (.ok wasm_env_ptr, st1) =>
                      match w.writeToMemoryFn st1 validated_msg with
                      | (.error e, _) =>
                        ⟨.error e, used_gas, t0 ++ [.writeToMemoryEv, .writeToMemoryEv]⟩
                      | (.ok wasm_msg_ptr, st2) =>
                        match w.callInitFn st2 wasm_env_ptr wasm_msg_ptr with
                        | (.error e, st3) =>
                          ⟨.error e, w.gasUsedFn st3,
                            t0 ++ [.writeToMemoryEv, .writeToMemoryEv, .entryCallEv,
                                   .writeUsedGasEv (w.gasUsedFn st3)]⟩
                        | (.ok vec_ptr, st3) =>
                          match w.extractVectorFn st3 vec_ptr with
                          | (.error e, st4) =>
                            ⟨.error e, w.gasUsedFn st4,
                              t0 ++ [.writeToMemoryEv, .writeToMemoryEv, .entryCallEv,
                                     .extractVectorEv, .writeUsedGasEv (w.gasUsedFn st4)]⟩
                          | (.ok output, st4) =>
                            match w.encryptOutputFn output secret_msg.nonce
                                secret_msg.user_public_key canonical_contract_address with
                            | .error e =>
                              ⟨.error e, w.gasUsedFn st4,
                                t0 ++ [.writeToMemoryEv, .writeToMemoryEv, .entryCallEv,
                                       .extractVectorEv, .encryptOutputEv,
                                       .writeUsedGasEv (w.gasUsedFn st4)]⟩
                            | .ok output2 =>
                              ⟨.ok { output := output2, contract_key := contract_key },
                                w.gasUsedFn st4,
                                t0 ++ [.writeToMemoryEv, .writeToMemoryEv, .entryCallEv,
                                       .extractVectorEv, .encryptOutputEv,
                                       .writeUsedGasEv (w.gasUsedFn st4)]⟩

/-- `handle(context, gas_limit, used_gas, contract, env, msg, sig_info)`,
following the source order: parse env, stamp the code hash, parse sig, parse
the secret message, verify params, extract the contract key, parse the
secret message a second time, decrypt, validate the plaintext, canonicalize
the contract address, validate the contract key, start the engine (operation
Handle), serialize and stage env and msg, call the entry point, extract and
encrypt the output. -/
def handle (w : World) (context : Nat) (gas_limit : Nat) (used_gas : Nat)
    (contract env msg sig_info : List Nat) : CallResult HandleSuccess :=
  let contract_code : ContractCode := ⟨contract⟩
  let hash := w.hashFn contract
  match w.parseEnvFn env with
  | none => ⟨.error .FailedToDeserialize, used_gas, [.parseEnv]⟩
  | some env0 =>
    let env_v010 : EnvV010 := { env0 with contract_code_hash := hexEncode hash }
    match w.parseSigFn sig_info with
    | none => ⟨.error .FailedToDeserialize, used_gas, [.parseEnv, .parseSig]⟩
    | some parsed_sig_info =>
      match SecretMessage.from_slice msg with
      | .error e =>
        ⟨.error e, used_gas, [.parseEnv, .parseSig, .parseSecretMsg msg]⟩
      | .ok secret_msg =>
        match w.verifyParamsFn parsed_sig_info env_v010 secret_msg with
        | .error e =>
          ⟨.error e, used_gas,
            [.parseEnv, .parseSig, .parseSecretMsg msg, .verifyParams]⟩
        | .ok _ =>
          match extract_contract_key env_v010 with
          | .error e =>
            ⟨.error e, used_gas,
              [.parseEnv, .parseSig, .parseSecretMsg msg, .verifyParams, .extractKey]⟩
          | .ok contract_key =>
            match SecretMessage.from_slice msg with
            | .error e =>
              ⟨.error e, used_gas,
                [.parseEnv, .parseSig, .parseSecretMsg msg, .verifyParams, .extractKey,
                 .parseSecretMsg msg]⟩
            | .ok secret_msg2 =>
              match w.decryptFn secret_msg2 with
              | .error e =>
                ⟨.error e, used_gas,
                  [.parseEnv, .parseSig, .parseSecretMsg msg, .verifyParams, .extractKey,
                   .parseSecretMsg msg, .decryptEv]⟩
              | .ok decrypted_msg =>
                match w.validateMsgFn decrypted_msg hash with
                | .error e =>
                  ⟨.error e, used_gas,
                    [.parseEnv, .parseSig, .parseSecretMsg msg, .verifyParams, .extractKey,
                     .parseSecretMsg msg, .decryptEv, .validateMsgEv]⟩
                | .ok validated_msg =>
                  match w.fromHumanFn env_v010.contract.address with
                  | none =>
                    ⟨.error .FailedToDeserialize, used_gas,
                      [.parseEnv, .parseSig, .parseSecretMsg msg, .verifyParams, .extractKey,
                       .parseSecretMsg msg, .decryptEv, .validateMsgEv, .canonAddr]⟩
                  | some canonical_contract_address =>
                    if w.validateContractKeyFn contract_key
                        canonical_contract_address.bytes contract = false then
                      ⟨.error .FailedContractAuthentication, used_gas,
                        [.parseEnv, .parseSig, .parseSecretMsg msg, .verifyParams, .extractKey,
                         .parseSecretMsg msg, .decryptEv, .validateMsgEv, .canonAddr,
                         .validateContractKeyEv]⟩
                    else
                      match start_engine w context gas_limit contract_code contract_key
                          .Handle secret_msg2.nonce secret_msg2.user_public_key with
                      | .error e =>
                        ⟨.error e, used_gas,
                          [.parseEnv, .parseSig, .parseSecretMsg msg, .verifyParams, .extractKey,
                           .parseSecretMsg msg, .decryptEv, .validateMsgEv, .canonAddr,
                           .validateContractKeyEv]⟩
                      | .ok engine =>
                        let ceb := env_to_bytes w engine env_v010
                        let t0 : List Event :=
                          [.parseEnv, .parseSig, .parseSecretMsg msg, .verifyParams, .extractKey,
                           .parseSecretMsg msg, .decryptEv, .validateMsgEv, .canonAddr,
                           .validateContractKeyEv, .startEngineEv contract_key,
                           .serializeEnvEv ceb.1]
                        match w.writeToMemoryFn engine.st ceb.2 with
                        | (.error e, _) =>
                          ⟨.error e, used_gas, t0 ++ [.writeToMemoryEv]⟩
                        | (.ok env_ptr, st1) =>
                          match w.writeToMemoryFn st1 validated_msg with
                          | (.error e, _) =>
                            ⟨.error e, used_gas, t0 ++ [.writeToMemoryEv, .writeToMemoryEv]⟩
                          | (.ok msg_ptr, st2) =>
                            match w.callHandleFn st2 env_ptr msg_ptr with
                            | (.error e, st3) =>
                              ⟨.error e, w.gasUsedFn st3,
                                t0 ++ [.writeToMemoryEv, .writeToMemoryEv, .entryCallEv,
                                       .writeUsedGasEv (w.gasUsedFn st3)]⟩
                            | (.ok vec_ptr, st3) =>
                              match w.extractVectorFn st3 vec_ptr with
                              | (.error e, st4) =>
                                ⟨.error e, w.gasUsedFn st4,
                                  t0 ++ [.writeToMemoryEv, .writeToMemoryEv, .entryCallEv,
                                         .extractVectorEv, .writeUsedGasEv (w.gasUsedFn st4)]⟩
                              | (.ok output, st4) =>
                                match w.encryptOutputFn output secret_msg2.nonce
                                    secret_msg2.user_public_key canonical_contract_address with
                                | .error e =>
                                  ⟨.error e, w.gasUsedFn st4,
                                    t0 ++ [.writeToMemoryEv, .writeToMemoryEv, .entryCallEv,
                                           .extractVectorEv, .encryptOutputEv,
                                           .writeUsedGasEv (w.gasUsedFn st4)]⟩
                                | .ok output2 =>
                                  ⟨.ok { output := output2 }, w.gasUsedFn st4,
                                    t0 ++ [.writeToMemoryEv, .writeToMemoryEv, .entryCallEv,
                                           .extractVectorEv, .encryptOutputEv,
                                           .writeUsedGasEv (w.gasUsedFn st4)]⟩

/-- `query(context, gas_limit, used_gas, contract, msg)`, following the
source order: reject a msg shorter than `CONTRACT_KEY_LENGTH`, split the
contract-key prefix off, parse the remainder as a `SecretMessage`, decrypt,
validate the plaintext, start the engine (operation Query) keyed by the
prefix, stage the msg, call the entry point, extract and encrypt the output
with the empty contract address. -/
def query (w : World) (context : Nat) (gas_limit : Nat) (used_gas : Nat)
    (contract msg : List Nat) : CallResult QuerySuccess :=
  let contract_code : ContractCode := ⟨contract⟩
  let hash := w.hashFn contract
  if msg.length < CONTRACT_KEY_LENGTH then
    ⟨.error .FailedFunctionCall, used_gas, []⟩
  else
    let contract_key := msg.take CONTRACT_KEY_LENGTH
    let rest := msg.drop CONTRACT_KEY_LENGTH
    match SecretMessage.from_slice rest with
    | .error e => ⟨.error e, used_gas, [.parseSecretMsg rest]⟩
    | .ok secret_msg =>
      match w.decryptFn secret_msg with
      | .error e => ⟨.error e, used_gas, [.parseSecretMsg rest, .decryptEv]⟩
      | .ok decrypted_msg =>
        match w.validateMsgFn decrypted_msg hash with
        | .error e =>
          ⟨.error e, used_gas, [.parseSecretMsg rest, .decryptEv, .validateMsgEv]⟩
        | .ok validated_msg =>
          match start_engine w context gas_limit contract_code contract_key
              .Query secret_msg.nonce secret_msg.user_public_key with
          | .error e =>
            ⟨.error e, used_gas, [.parseSecretMsg rest, .decryptEv, .validateMsgEv]⟩
          | .ok engine =>
            let t0 : List Event :=
              [.parseSecretMsg rest, .decryptEv, .validateMsgEv,
               .startEngineEv contract_key]
            match w.writeToMemoryFn engine.st validated_msg with
            | (.error e, _) =>
              ⟨.error e, used_gas, t0 ++ [.writeToMemoryEv]⟩
            | (.ok msg_ptr, st1) =>
              match w.callQueryFn st1 msg_ptr with
              | (.error e, st2) =>
                ⟨.error e, w.gasUsedFn st2,
                  t0 ++ [.writeToMemoryEv, .entryCallEv,
                         .writeUsedGasEv (w.gasUsedFn st2)]⟩
              | (.ok vec_ptr, st2) =>
                match w.extractVectorFn st2 vec_ptr with
                | (.error e, st3) =>
                  ⟨.error e, w.gasUsedFn st3,
                    t0 ++ [.writeToMemoryEv, .entryCallEv, .extractVectorEv,
                           .writeUsedGasEv (w.gasUsedFn st3)]⟩
                | (.ok output, st3) =>
                  match w.encryptOutputFn output secret_msg.nonce
                      secret_msg.user_public_key ⟨[]⟩ with
                  | .error e =>
                    ⟨.error e, w.gasUsedFn st3,
                      t0 ++ [.writeToMemoryEv, .entryCallEv, .extractVectorEv,
                             .encryptOutputEv, .writeUsedGasEv (w.gasUsedFn st3)]⟩
                  | .ok output2 =>
                    ⟨.ok { output := output2 }, w.gasUsedFn st3,
                      t0 ++ [.writeToMemoryEv, .entryCallEv, .extractVectorEv,
                             .encryptOutputEv, .writeUsedGasEv (w.gasUsedFn st3)]⟩

/-- A fully successful concrete `EnvV010` used by the concrete worlds. -/
def envOk : EnvV010 :=
  { block := { height := 1, time := 2, chain_id := "t" }
    message := { sender := "s", sent_funds := [] }
    contract := { address := "a" }
    contract_key := some (List.replicate 64 1)
    contract_code_hash := "" }

/-- A 64-byte all-zero message: long enough for `SecretMessage::from_slice`. -/
def msg64 : List Nat := List.replicate 64 0

/-- A concrete world in which every collaborator succeeds; the engine state
starts at the module id (5), the entry-point call advances it by 37, and
`gas_used` reads the state, so a completed call reports 42 gas. -/
def Wok : World :=
  { parseEnvFn := fun _ => some envOk
    parseSigFn := fun _ => some ⟨[]⟩
    fromHumanFn := fun _ => some ⟨[9]⟩
    hashFn := fun _ => [170]
    generateKeyFn := fun _ _ _ => .ok (List.replicate 64 2)
    verifyParamsFn := fun _ _ _ => .ok ()
    decryptFn := fun _ => .ok [1, 2, 3]
    validateMsgFn := fun p _ => .ok p
    validateContractKeyFn := fun _ _ _ => true
    createModuleFn := fun _ => .ok 5
    apiVersionFn := fun _ => .V010
    mkEngineStateFn := fun _ m _ => m
    serializeEnvFn := fun _ => [7]
    writeToMemoryFn := fun st _ => (.ok 1, st)
    callInitFn := fun st _ _ => (.ok 2, st + 37)
    callHandleFn := fun st _ _ => (.ok 2, st + 37)
    callQueryFn := fun st _ => (.ok 2, st + 37)
    extractVectorFn := fun st _ => (.ok [4], st)
    gasUsedFn := fun st => st
    encryptOutputFn := fun out _ _ _ => .ok out }

/-- `Wok` with a failing `write_to_memory`: the engine is constructed, then
the first memory staging fails. -/
def WmemFail : World :=
  { Wok with writeToMemoryFn := fun st _ => (.error .FailedFunctionCall, st) }

/-- `Wok` with a V016 module, to exercise the V016 arm of `env_to_bytes`. -/
def Wok16 : World :=
  { Wok with apiVersionFn := fun _ => .V016 }

/-- The variant of `handle` the spec asks about for the refinement claim:
identical to `handle` except that `SecretMessage::from_slice(msg)` is called
once and its result reused for verification, decryption, and the engine's
nonce and user public key. -/
def handleSingleParse (w : World) (context : Nat) (gas_limit : Nat) (used_gas : Nat)
    (contract env msg sig_info : List Nat) : CallResult HandleSuccess :=
  let contract_code : ContractCode := ⟨contract⟩
  let hash := w.hashFn contract
  match w.parseEnvFn env with
  | none => ⟨.error .FailedToDeserialize, used_gas, [.parseEnv]⟩
  | some env0 =>
    let env_v010 : EnvV010 := { env0 with contract_code_hash := hexEncode hash }
    match w.parseSigFn sig_info with
    | none => ⟨.error .FailedToDeserialize, used_gas, [.parseEnv, .parseSig]⟩
    | some parsed_sig_info =>
      match SecretMessage.from_slice msg with
      | .error e =>
        ⟨.error e, used_gas, [.parseEnv, .parseSig, .parseSecretMsg msg]⟩
      | .ok secret_msg =>
        match w.verifyParamsFn parsed_sig_info env_v010 secret_msg with
        | .error e =>
          ⟨.error e, used_gas,
            [.parseEnv, .parseSig, .parseSecretMsg msg, .verifyParams]⟩
        | .ok _ =>
          match extract_contract_key env_v010 with
          | .error e =>
            ⟨.error e, used_gas,
              [.parseEnv, .parseSig, .parseSecretMsg msg, .verifyParams, .extractKey]⟩
          | .ok contract_key =>
            match w.decryptFn secret_msg with
            | .error e =>
              ⟨.error e, used_gas,
                [.parseEnv, .parseSig, .parseSecretMsg msg, .verifyParams, .extractKey,
                 .decryptEv]⟩
            | .ok decrypted_msg =>
              match w.validateMsgFn decrypted_msg hash with
              | .error e =>
                ⟨.error e, used_gas,
                  [.parseEnv, .parseSig, .parseSecretMsg msg, .verifyParams, .extractKey,
                   .decryptEv, .validateMsgEv]⟩
              | .ok validated_msg =>
                match w.fromHumanFn env_v010.contract.address with
                | none =>
                  ⟨.error .FailedToDeserialize, used_gas,
                    [.parseEnv, .parseSig, .parseSecretMsg msg, .verifyParams, .extractKey,
                     .decryptEv, .validateMsgEv, .canonAddr]⟩
                | some canonical_contract_address =>
                  if w.validateContractKeyFn contract_key
                      canonical_contract_address.bytes contract = false then
                    ⟨.error .FailedContractAuthentication, used_gas,
                      [.parseEnv, .parseSig, .parseSecretMsg msg, .verifyParams, .extractKey,
                       .decryptEv, .validateMsgEv, .canonAddr, .validateContractKeyEv]⟩
                  else
                    match start_engine w context gas_limit contract_code contract_key
                        .Handle secret_msg.nonce secret_msg.user_public_key with
                    | .error e =>
                      ⟨.error e, used_gas,
                        [.parseEnv, .parseSig, .parseSecretMsg msg, .verifyParams, .extractKey,
                         .decryptEv, .validateMsgEv, .canonAddr, .validateContractKeyEv]⟩
                    | .ok engine =>
                      let ceb := env_to_bytes w engine env_v010
                      let t0 : List Event :=
                        [.parseEnv, .parseSig, .parseSecretMsg msg, .verifyParams, .extractKey,
                         .decryptEv, .validateMsgEv, .canonAddr, .validateContractKeyEv,
                         .startEngineEv contract_key, .serializeEnvEv ceb.1]
                      match w.writeToMemoryFn engine.st ceb.2 with
                      | (.error e, _) =>
                        ⟨.error e, used_gas, t0 ++ [.writeToMemoryEv]⟩
                      | (.ok env_ptr, st1) =>
                        match w.writeToMemoryFn st1 validated_msg with
                        | (.error e, _) =>
                          ⟨.error e, used_gas, t0 ++ [.writeToMemoryEv, .writeToMemoryEv]⟩
                        | (.ok msg_ptr, st2) =>
                          match w.callHandleFn st2 env_ptr msg_ptr with
                          | (.error e, st3) =>
                            ⟨.error e, w.gasUsedFn st3,
                              t0 ++ [.writeToMemoryEv, .writeToMemoryEv, .entryCallEv,
                                     .writeUsedGasEv (w.gasUsedFn st3)]⟩
                          | (.ok vec_ptr, st3) =>
                            match w.extractVectorFn st3 vec_ptr with
                            | (.error e, st4) =>
                              ⟨.error e, w.gasUsedFn st4,
                                t0 ++ [.writeToMemoryEv, .writeToMemoryEv, .entryCallEv,
                                       .extractVectorEv, .writeUsedGasEv (w.gasUsedFn st4)]⟩
                            | (.ok output, st4) =>
                              match w.encryptOutputFn output secret_msg.nonce
                                  secret_msg.user_public_key canonical_contract_address with
                              | .error e =>
                                ⟨.error e, w.gasUsedFn st4,
                                  t0 ++ [.writeToMemoryEv, .writeToMemoryEv, .entryCallEv,
                                         .extractVectorEv, .encryptOutputEv,
                                         .writeUsedGasEv (w.gasUsedFn st4)]⟩
                              | .ok output2 =>
                                ⟨.ok { output := output2 }, w.gasUsedFn st4,
                                  t0 ++ [.writeToMemoryEv, .writeToMemoryEv, .entryCallEv,
                                         .extractVectorEv, .encryptOutputEv,
                                         .writeUsedGasEv (w.gasUsedFn st4)]⟩

/-- `occursBefore t p q` holds when an event satisfying `p` and an event
satisfying `q` both occur in `t` and the first `p`-event strictly precedes
the first `q`-event. -/
def occursBefore (t : List Event) (p q : Event → Bool) : Bool :=
  match t.findIdx? p, t.findIdx? q with
  | some i, some j => decide (i < j)
  | _, _ => false

/-- `envOk` with an absent contract key, so `extract_contract_key` fails. -/
def envNoKey : EnvV010 := { envOk with contract_key := none }

/-- `Wok` but the host env carries no contract key. -/
def WnoKey : World := { Wok with parseEnvFn := fun _ => some envNoKey }

/-- `envOk` with a different message and no contract key, agreeing with
`envOk` on block, contract address and code hash. -/
def envOk2 : EnvV010 :=
  { envOk with
    message := { sender := "other", sent_funds := [("x", 1)] }
    contract_key := none }

/-- The only error `extract_contract_key` produces is
`FailedContractAuthentication`. -/
theorem extract_contract_key_error_kind (env : EnvV010) (e : EnclaveError)
    (h : extract_contract_key env = .error e) : e = .FailedContractAuthentication := by
  unfold extract_contract_key at h
  split at h <;> [skip; split at h] <;> simp_all

/-- In both arms of `env_to_bytes`, the env handed to the serializer carries
the V010 env's `contract_code_hash`. -/
theorem env_to_contract_env_codeHash (v : CosmWasmApiVersion) (e : EnvV010) :
    (env_to_contract_env v e).codeHash = e.contract_code_hash := by
  cases v <;> rfl

/-- In both arms of `env_to_bytes`, the env handed to the serializer has no
contract key. -/
theorem env_to_contract_env_contractKey (v : CosmWasmApiVersion) (e : EnvV010) :
    (env_to_contract_env v e).contractKey = none := by
  cases v <;> rfl

/-- If `init` never constructed an engine, `used_gas` is unchanged. -/
theorem init_no_engine_gas_unchanged (w : World) (context gas_limit used_gas : Nat)
    (contract env msg sig_info : List Nat)
    (h : (init w context gas_limit used_gas contract env msg sig_info).trace.any
      Event.isStartEngine = false) :
    (init w context gas_limit used_gas contract env msg sig_info).usedGas = used_gas := by
  unfold init start_engine at *
  dsimp only at *
  revert h
  (repeat' split) <;> intro h <;> first | rfl | simp [Event.isStartEngine] at h

/-- If `handle` never constructed an engine, `used_gas` is unchanged. -/
theorem handle_no_engine_gas_unchanged (w : World) (context gas_limit used_gas : Nat)
    (contract env msg sig_info : List Nat)
    (h : (handle w context gas_limit used_gas contract env msg sig_info).trace.any
      Event.isStartEngine = false) :
    (handle w context gas_limit used_gas contract env msg sig_info).usedGas = used_gas := by
  unfold handle start_engine at *
  dsimp only at *
  revert h
  (repeat' split) <;> intro h <;> first | rfl | simp [Event.isStartEngine] at h

/-- If `query` never constructed an engine, `used_gas` is unchanged. -/
theorem query_no_engine_gas_unchanged (w : World) (context gas_limit used_gas : Nat)
    (contract msg : List Nat)
    (h : (query w context gas_limit used_gas contract msg).trace.any
      Event.isStartEngine = false) :
    (query w context gas_limit used_gas contract msg).usedGas = used_gas := by
  unfold query start_engine at *
  dsimp only at *
  revert h
  (repeat' split) <;> intro h <;> first | rfl | simp [Event.isStartEngine] at h

/-- Once `init` has invoked the wasm entry point, `used_gas` is written: the
trace records the write and the out-parameter holds the written value. -/
theorem init_entry_call_writes_gas (w : World) (context gas_limit used_gas : Nat)
    (contract env msg sig_info : List Nat)
    (h : (init w context gas_limit used_gas contract env msg sig_info).trace.any
      Event.isEntryCall = true) :
    (init w context gas_limit used_gas contract env msg sig_info).trace.any
      Event.isWriteUsedGas = true ∧
    Event.writeUsedGasEv
        (init w context gas_limit used_gas contract env msg sig_info).usedGas ∈
      (init w context gas_limit used_gas contract env msg sig_info).trace := by
  unfold init start_engine at *
  dsimp only at *
  revert h
  (repeat' split) <;> intro h <;>
    first
      | (simp [Event.isEntryCall] at h; done)
      | exact ⟨by simp [Event.isWriteUsedGas], by simp⟩

/-- Once `handle` has invoked the wasm entry point, `used_gas` is written. -/
theorem handle_entry_call_writes_gas (w : World) (context gas_limit used_gas : Nat)
    (contract env msg sig_info : List Nat)
    (h : (handle w context gas_limit used_gas contract env msg sig_info).trace.any
      Event.isEntryCall = true) :
    (handle w context gas_limit used_gas contract env msg sig_info).trace.any
      Event.isWriteUsedGas = true ∧
    Event.writeUsedGasEv
        (handle w context gas_limit used_gas contract env msg sig_info).usedGas ∈
      (handle w context gas_limit used_gas contract env msg sig_info).trace := by
  unfold handle start_engine at *
  dsimp only at *
  revert h
  (repeat' split) <;> intro h <;>
    first
      | (simp [Event.isEntryCall] at h; done)
      | exact ⟨by simp [Event.isWriteUsedGas], by simp⟩

/-- Once `query` has invoked the wasm entry point, `used_gas` is written. -/
theorem query_entry_call_writes_gas (w : World) (context gas_limit used_gas : Nat)
    (contract msg : List Nat)
    (h : (query w context gas_limit used_gas contract msg).trace.any
      Event.isEntryCall = true) :
    (query w context gas_limit used_gas contract msg).trace.any
      Event.isWriteUsedGas = true ∧
    Event.writeUsedGasEv (query w context gas_limit used_gas contract msg).usedGas ∈
      (query w context gas_limit used_gas contract msg).trace := by
  unfold query start_engine at *
  dsimp only at *
  revert h
  (repeat' split) <;> intro h <;>
    first
      | (simp [Event.isEntryCall] at h; done)
      | exact ⟨by simp [Event.isWriteUsedGas], by simp⟩

/-- If `init` constructed the engine but never reached the entry point (a
`write_to_memory` failure), it returns with `used_gas` untouched and no gas
write recorded. -/
theorem init_mem_stage_fail_leaves_gas (w : World) (context gas_limit used_gas : Nat)
    (contract env msg sig_info : List Nat)
    (h1 : (init w context gas_limit used_gas contract env msg sig_info).trace.any
      Event.isStartEngine = true)
    (h2 : (init w context gas_limit used_gas contract env msg sig_info).trace.any
      Event.isEntryCall = false) :
    (init w context gas_limit used_gas contract env msg sig_info).usedGas = used_gas ∧
    (init w context gas_limit used_gas contract env msg sig_info).trace.any
      Event.isWriteUsedGas = false := by
  unfold init start_engine at *
  dsimp only at *
  revert h1 h2
  (repeat' split) <;> intro h1 h2 <;>
    first
      | (simp [Event.isStartEngine] at h1; done)
      | (simp [Event.isEntryCall] at h2; done)
      | exact ⟨rfl, by simp [Event.isWriteUsedGas]⟩

/-- If `handle` constructed the engine but never reached the entry point, it
returns with `used_gas` untouched and no gas write recorded. -/
theorem handle_mem_stage_fail_leaves_gas (w : World) (context gas_limit used_gas : Nat)
    (contract env msg sig_info : List Nat)
    (h1 : (handle w context gas_limit used_gas contract env msg sig_info).trace.any
      Event.isStartEngine = true)
    (h2 : (handle w context gas_limit used_gas contract env msg sig_info).trace.any
      Event.isEntryCall = false) :
    (handle w context gas_limit used_gas contract env msg sig_info).usedGas = used_gas ∧
    (handle w context gas_limit used_gas contract env msg sig_info).trace.any
      Event.isWriteUsedGas = false := by
  unfold handle start_engine at *
  dsimp only at *
  revert h1 h2
  (repeat' split) <;> intro h1 h2 <;>
    first
      | (simp [Event.isStartEngine] at h1; done)
      | (simp [Event.isEntryCall] at h2; done)
      | exact ⟨rfl, by simp [Event.isWriteUsedGas]⟩

/-- If `query` constructed the engine but never reached the entry point, it
returns with `used_gas` untouched and no gas write recorded. -/
theorem query_mem_stage_fail_leaves_gas (w : World) (context gas_limit used_gas : Nat)
    (contract msg : List Nat)
    (h1 : (query w context gas_limit used_gas contract msg).trace.any
      Event.isStartEngine = true)
    (h2 : (query w context gas_limit used_gas contract msg).trace.any
      Event.isEntryCall = false) :
    (query w context gas_limit used_gas contract msg).usedGas = used_gas ∧
    (query w context gas_limit used_gas contract msg).trace.any
      Event.isWriteUsedGas = false := by
  unfold query start_engine at *
  dsimp only at *
  revert h1 h2
  (repeat' split) <;> intro h1 h2 <;>
    first
      | (simp [Event.isStartEngine] at h1; done)
      | (simp [Event.isEntryCall] at h2; done)
      | exact ⟨rfl, by simp [Event.isWriteUsedGas]⟩

/-- Any env serialized for the contract during `init` carries the stamped
code hash and no contract key. -/
theorem init_serialize_env_stamped (w : World) (context gas_limit used_gas : Nat)
    (contract env msg sig_info : List Nat) (ce : ContractEnv)
    (h : Event.serializeEnvEv ce ∈
      (init w context gas_limit used_gas contract env msg sig_info).trace) :
    ce.codeHash = hexEncode (w.hashFn contract) ∧ ce.contractKey = none := by
  unfold init start_engine env_to_bytes at h
  dsimp only at h
  revert h
  (repeat' split) <;> intro h <;> simp at h <;>
    (subst h;
     simp [env_to_contract_env_codeHash, env_to_contract_env_contractKey])

/-- Any env serialized for the contract during `handle` carries the stamped
code hash and no contract key. -/
theorem handle_serialize_env_stamped (w : World) (context gas_limit used_gas : Nat)
    (contract env msg sig_info : List Nat) (ce : ContractEnv)
    (h : Event.serializeEnvEv ce ∈
      (handle w context gas_limit used_gas contract env msg sig_info).trace) :
    ce.codeHash = hexEncode (w.hashFn contract) ∧ ce.contractKey = none := by
  unfold handle start_engine env_to_bytes at h
  dsimp only at h
  revert h
  (repeat' split) <;> intro h <;> simp at h <;>
    (subst h;
     simp [env_to_contract_env_codeHash, env_to_contract_env_contractKey])

/-- When everything up to it succeeds and `extract_contract_key` fails,
`handle` returns `FailedContractAuthentication` without an engine and with
`used_gas` untouched. -/
theorem handle_extract_fail_no_engine (w : World) (context gas_limit used_gas : Nat)
    (contract env msg sig_info : List Nat)
    (e0 : EnvV010) (si : SigInfo) (sm : SecretMessage) (err : EnclaveError)
    (h1 : w.parseEnvFn env = some e0)
    (h2 : w.parseSigFn sig_info = some si)
    (h3 : SecretMessage.from_slice msg = .ok sm)
    (h4 : w.verifyParamsFn si
      { e0 with contract_code_hash := hexEncode (w.hashFn contract) } sm = .ok ())
    (h5 : extract_contract_key
      { e0 with contract_code_hash := hexEncode (w.hashFn contract) } = .error err) :
    (handle w context gas_limit used_gas contract env msg sig_info).result =
      .error .FailedContractAuthentication ∧
    (handle w context gas_limit used_gas contract env msg sig_info).trace.any
      Event.isStartEngine = false ∧
    (handle w context gas_limit used_gas contract env msg sig_info).usedGas = used_gas := by
  have he := extract_contract_key_error_kind _ _ h5
  subst he
  unfold handle
  simp only [h1, h2, h3, h4, h5]
  simp [Event.isStartEngine]

/-- When everything up to it succeeds and `validate_contract_key` returns
`false`, `handle` returns `FailedContractAuthentication` without an engine
and with `used_gas` untouched. -/
theorem handle_validate_fail_no_engine (w : World) (context gas_limit used_gas : Nat)
    (contract env msg sig_info : List Nat)
    (e0 : EnvV010) (si : SigInfo) (sm : SecretMessage) (k d v : List Nat)
    (ca : CanonicalAddr)
    (h1 : w.parseEnvFn env = some e0)
    (h2 : w.parseSigFn sig_info = some si)
    (h3 : SecretMessage.from_slice msg = .ok sm)
    (h4 : w.verifyParamsFn si
      { e0 with contract_code_hash := hexEncode (w.hashFn contract) } sm = .ok ())
    (h5 : extract_contract_key
      { e0 with contract_code_hash := hexEncode (w.hashFn contract) } = .ok k)
    (h6 : w.decryptFn sm = .ok d)
    (h7 : w.validateMsgFn d (w.hashFn contract) = .ok v)
    (h8 : w.fromHumanFn e0.contract.address = some ca)
    (h9 : w.validateContractKeyFn k ca.bytes contract = false) :
    (handle w context gas_limit used_gas contract env msg sig_info).result =
      .error .FailedContractAuthentication ∧
    (handle w context gas_limit used_gas contract env msg sig_info).trace.any
      Event.isStartEngine = false ∧
    (handle w context gas_limit used_gas contract env msg sig_info).usedGas = used_gas := by
  unfold handle
  simp only [h1, h2, h3, h4, h5, h6, h7, h8, h9]
  simp [Event.isStartEngine]

/-- C1 (counterexample): the claim fails at a concrete input. With every
collaborator succeeding except `write_to_memory`, `handle` constructs the
Engine (a start-engine event is in the trace) and then returns an error
without any write to `used_gas`: the out-parameter still holds its input
value 7 rather than the engine's `gas_used()`. The failing `?` on
`engine.write_to_memory` sits outside the coalesced error block that
performs the gas write. -/
theorem handle_write_to_memory_failure_skips_gas_write :
    ((handle WmemFail 0 100 7 [0] [0] msg64 [0]).trace.any Event.isStartEngine = true) ∧
    ((handle WmemFail 0 100 7 [0] [0] msg64 [0]).trace.any Event.isWriteUsedGas = false) ∧
    (handle WmemFail 0 100 7 [0] [0] msg64 [0]).usedGas = 7 ∧
    (handle WmemFail 0 100 7 [0] [0] msg64 [0]).result = .error .FailedFunctionCall :=
  ⟨rfl, rfl, rfl, rfl⟩

/-- C1 (amended): in every `init`, `handle`, or `query` call, once the
wasm entry point has been invoked, the Engine's `gas_used()` is written to
the `used_gas` out-parameter before returning — on success and on failures
of the entry-point call, `extract_vector`, and `encrypt_output`; but when
`write_to_memory` fails after the Engine exists, the call returns with
`used_gas` untouched and no gas write occurs. -/
theorem gas_write_discipline (w : World) (context gas_limit used_gas : Nat)
    (contract env msg sig_info : List Nat) :
    ((init w context gas_limit used_gas contract env msg sig_info).trace.any
        Event.isEntryCall = true →
      (init w context gas_limit used_gas contract env msg sig_info).trace.any
        Event.isWriteUsedGas = true ∧
      Event.writeUsedGasEv
          (init w context gas_limit used_gas contract env msg sig_info).usedGas ∈
        (init w context gas_limit used_gas contract env msg sig_info).trace) ∧
    ((handle w context gas_limit used_gas contract env msg sig_info).trace.any
        Event.isEntryCall = true →
      (handle w context gas_limit used_gas contract env msg sig_info).trace.any
        Event.isWriteUsedGas = true ∧
      Event.writeUsedGasEv
          (handle w context gas_limit used_gas contract env msg sig_info).usedGas ∈
        (handle w context gas_limit used_gas contract env msg sig_info).trace) ∧
    ((query w context gas_limit used_gas contract msg).trace.any
        Event.isEntryCall = true →
      (query w context gas_limit used_gas contract msg).trace.any
        Event.isWriteUsedGas = true ∧
      Event.writeUsedGasEv (query w context gas_limit used_gas contract msg).usedGas ∈
        (query w context gas_limit used_gas contract msg).trace) ∧
    ((init w context gas_limit used_gas contract env msg sig_info).trace.any
        Event.isStartEngine = true →
      (init w context gas_limit used_gas contract env msg sig_info).trace.any
        Event.isEntryCall = false →
      (init w context gas_limit used_gas contract env msg sig_info).usedGas = used_gas ∧
      (init w context gas_limit used_gas contract env msg sig_info).trace.any
        Event.isWriteUsedGas = false) ∧
    ((handle w context gas_limit used_gas contract env msg sig_info).trace.any
        Event.isStartEngine = true →
      (handle w context gas_limit used_gas contract env msg sig_info).trace.any
        Event.isEntryCall = false →
      (handle w context gas_limit used_gas contract env msg sig_info).usedGas = used_gas ∧
      (handle w context gas_limit used_gas contract env msg sig_info).trace.any
        Event.isWriteUsedGas = false) ∧
    ((query w context gas_limit used_gas contract msg).trace.any
        Event.isStartEngine = true →
      (query w context gas_limit used_gas contract msg).trace.any
        Event.isEntryCall = false →
      (query w context gas_limit used_gas contract msg).usedGas = used_gas ∧
      (query w context gas_limit used_gas contract msg).trace.any
        Event.isWriteUsedGas = false) :=
  ⟨fun h => init_entry_call_writes_gas w context gas_limit used_gas contract env msg sig_info h,
   fun h => handle_entry_call_writes_gas w context gas_limit used_gas contract env msg sig_info h,
   fun h => query_entry_call_writes_gas w context gas_limit used_gas contract msg h,
   fun h1 h2 => init_mem_stage_fail_leaves_gas w context gas_limit used_gas contract env msg sig_info h1 h2,
   fun h1 h2 => handle_mem_stage_fail_leaves_gas w context gas_limit used_gas contract env msg sig_info h1 h2,
   fun h1 h2 => query_mem_stage_fail_leaves_gas w context gas_limit used_gas contract msg h1 h2⟩

/-- C1 (witness): at a fully successful concrete `handle` call the gas write
is recorded and `used_gas` holds the written value. -/
theorem gas_write_discipline_witness :
    (handle Wok 0 100 7 [0] [0] msg64 [0]).trace.any Event.isWriteUsedGas = true ∧
    Event.writeUsedGasEv (handle Wok 0 100 7 [0] [0] msg64 [0]).usedGas ∈
      (handle Wok 0 100 7 [0] [0] msg64 [0]).trace :=
  (gas_write_discipline Wok 0 100 7 [0] [0] msg64 [0]).2.1 rfl

/-- C2 (counterexample): the claim fails at a concrete input. In a fully
successful `handle` call, both a decrypt call and a `validate_contract_key`
call occur, but the first `validate_contract_key` does NOT precede the first
decrypt — decryption comes first — refuting the claimed order
"authenticate key, then decrypt". -/
theorem handle_decrypt_precedes_key_validation :
    occursBefore (handle Wok 0 100 7 [0] [0] msg64 [0]).trace
      Event.isValidateContractKey Event.isDecrypt = false ∧
    (handle Wok 0 100 7 [0] [0] msg64 [0]).trace.any Event.isValidateContractKey = true ∧
    (handle Wok 0 100 7 [0] [0] msg64 [0]).trace.any Event.isDecrypt = true ∧
    occursBefore (handle Wok 0 100 7 [0] [0] msg64 [0]).trace
      Event.isDecrypt Event.isValidateContractKey = true ∧
    (handle Wok 0 100 7 [0] [0] msg64 [0]).result = .ok { output := [4] } :=
  ⟨rfl, rfl, rfl, rfl, rfl⟩

/-- C2 (amended): whenever `handle` constructs the engine, the first eleven
trace events are, in order: parse env, parse sig, parse secret msg, verify
params, extract contract key, re-parse secret msg, decrypt, validate
plaintext, canonicalize address, validate contract key, start engine. In
particular `validate_contract_key` happens after decryption, not before. -/
theorem handle_engine_trace_order (w : World) (context gas_limit used_gas : Nat)
    (contract env msg sig_info : List Nat)
    (h : (handle w context gas_limit used_gas contract env msg sig_info).trace.any
      Event.isStartEngine = true) :
    ∃ k, (handle w context gas_limit used_gas contract env msg sig_info).trace.take 11 =
      [.parseEnv, .parseSig, .parseSecretMsg msg, .verifyParams, .extractKey,
       .parseSecretMsg msg, .decryptEv, .validateMsgEv, .canonAddr,
       .validateContractKeyEv, .startEngineEv k] := by
  unfold handle start_engine at *
  dsimp only at *
  revert h
  (repeat' split) <;> intro h <;>
    first
      | (simp [Event.isStartEngine] at h; done)
      | exact ⟨_, rfl⟩

/-- C2 (witness): the order theorem applied at a concrete successful
`handle` call. -/
theorem handle_engine_trace_order_witness :
    ∃ k, (handle Wok 0 100 7 [0] [0] msg64 [0]).trace.take 11 =
      [.parseEnv, .parseSig, .parseSecretMsg msg64, .verifyParams, .extractKey,
       .parseSecretMsg msg64, .decryptEv, .validateMsgEv, .canonAddr,
       .validateContractKeyEv, .startEngineEv k] :=
  handle_engine_trace_order Wok 0 100 7 [0] [0] msg64 [0] rfl

/-- C3: failures before the Engine is constructed leave the `used_gas`
out-parameter unchanged, in all three operations; in particular, when
`extract_contract_key` fails or `validate_contract_key` rejects during
`handle`, the call returns `FailedContractAuthentication` without ever
constructing the Engine and with `used_gas` untouched. -/
theorem pre_engine_failures_leave_used_gas (w : World) (context gas_limit used_gas : Nat)
    (contract env msg sig_info : List Nat) :
    ((init w context gas_limit used_gas contract env msg sig_info).trace.any
        Event.isStartEngine = false →
      (init w context gas_limit used_gas contract env msg sig_info).usedGas = used_gas) ∧
    ((handle w context gas_limit used_gas contract env msg sig_info).trace.any
        Event.isStartEngine = false →
      (handle w context gas_limit used_gas contract env msg sig_info).usedGas = used_gas) ∧
    ((query w context gas_limit used_gas contract msg).trace.any
        Event.isStartEngine = false →
      (query w context gas_limit used_gas contract msg).usedGas = used_gas) ∧
    (∀ (e0 : EnvV010) (si : SigInfo) (sm : SecretMessage) (err : EnclaveError),
      w.parseEnvFn env = some e0 →
      w.parseSigFn sig_info = some si →
      SecretMessage.from_slice msg = .ok sm →
      w.verifyParamsFn si
        { e0 with contract_code_hash := hexEncode (w.hashFn contract) } sm = .ok () →
      extract_contract_key
        { e0 with contract_code_hash := hexEncode (w.hashFn contract) } = .error err →
      (handle w context gas_limit used_gas contract env msg sig_info).result =
        .error .FailedContractAuthentication ∧
      (handle w context gas_limit used_gas contract env msg sig_info).trace.any
        Event.isStartEngine = false ∧
      (handle w context gas_limit used_gas contract env msg sig_info).usedGas = used_gas) ∧
    (∀ (e0 : EnvV010) (si : SigInfo) (sm : SecretMessage) (k d v : List Nat)
        (ca : CanonicalAddr),
      w.parseEnvFn env = some e0 →
      w.parseSigFn sig_info = some si →
      SecretMessage.from_slice msg = .ok sm →
      w.verifyParamsFn si
        { e0 with contract_code_hash := hexEncode (w.hashFn contract) } sm = .ok () →
      extract_contract_key
        { e0 with contract_code_hash := hexEncode (w.hashFn contract) } = .ok k →
      w.decryptFn sm = .ok d →
      w.validateMsgFn d (w.hashFn contract) = .ok v →
      w.fromHumanFn e0.contract.address = some ca →
      w.validateContractKeyFn k ca.bytes contract = false →
      (handle w context gas_limit used_gas contract env msg sig_info).result =
        .error .FailedContractAuthentication ∧
      (handle w context gas_limit used_gas contract env msg sig_info).trace.any
        Event.isStartEngine = false ∧
      (handle w context gas_limit used_gas contract env msg sig_info).usedGas = used_gas) :=
  ⟨init_no_engine_gas_unchanged w context gas_limit used_gas contract env msg sig_info,
   handle_no_engine_gas_unchanged w context gas_limit used_gas contract env msg sig_info,
   query_no_engine_gas_unchanged w context gas_limit used_gas contract msg,
   fun e0 si sm err h1 h2 h3 h4 h5 =>
     handle_extract_fail_no_engine w context gas_limit used_gas contract env msg sig_info
       e0 si sm err h1 h2 h3 h4 h5,
   fun e0 si sm k d v ca h1 h2 h3 h4 h5 h6 h7 h8 h9 =>
     handle_validate_fail_no_engine w context gas_limit used_gas contract env msg sig_info
       e0 si sm k d v ca h1 h2 h3 h4 h5 h6 h7 h8 h9⟩

/-- C3 (witness): with a host env carrying no contract key, `handle` fails
contract authentication with no engine and `used_gas` still 7. -/
theorem pre_engine_failures_leave_used_gas_witness :
    (handle WnoKey 0 100 7 [0] [0] msg64 [0]).result = .error .FailedContractAuthentication ∧
    (handle WnoKey 0 100 7 [0] [0] msg64 [0]).trace.any Event.isStartEngine = false ∧
    (handle WnoKey 0 100 7 [0] [0] msg64 [0]).usedGas = 7 :=
  (pre_engine_failures_leave_used_gas WnoKey 0 100 7 [0] [0] msg64 [0]).2.2.2.1
    envNoKey ⟨[]⟩ ⟨List.replicate 32 0, List.replicate 32 0, []⟩ .FailedContractAuthentication
    rfl rfl rfl rfl rfl

/-- C4: every env serialized for the contract during `init` or `handle`
carries `contract_code_hash` equal to the hex-encoded hash of the supplied
contract bytes — regardless of the host-supplied value — and its contract
key is absent. -/
theorem serialized_env_stamped_and_key_cleared (w : World) (context gas_limit used_gas : Nat)
    (contract env msg sig_info : List Nat) (ce : ContractEnv) :
    (Event.serializeEnvEv ce ∈
        (init w context gas_limit used_gas contract env msg sig_info).trace →
      ce.codeHash = hexEncode (w.hashFn contract) ∧ ce.contractKey = none) ∧
    (Event.serializeEnvEv ce ∈
        (handle w context gas_limit used_gas contract env msg sig_info).trace →
      ce.codeHash = hexEncode (w.hashFn contract) ∧ ce.contractKey = none) :=
  ⟨fun h => init_serialize_env_stamped w context gas_limit used_gas contract env msg sig_info ce h,
   fun h => handle_serialize_env_stamped w context gas_limit used_gas contract env msg sig_info ce h⟩

/-- C4 (witness): the V016 env a concrete `handle` call serializes (host
supplied an empty code hash) carries the stamped hash of the contract bytes
and no contract key. -/
theorem serialized_env_stamped_and_key_cleared_witness :
    (ContractEnv.v016
      { block := { height := 1, time := ⟨2000000000⟩, chain_id := "t" }
        contract := { address := "a", code_hash := "aa" } }).codeHash =
      hexEncode (Wok16.hashFn [0]) ∧
    (ContractEnv.v016
      { block := { height := 1, time := ⟨2000000000⟩, chain_id := "t" }
        contract := { address := "a", code_hash := "aa" } }).contractKey = none :=
  (serialized_env_stamped_and_key_cleared Wok16 0 100 7 [0] [0] msg64 [0] _).2 (by decide)

/-- C5: no `query` call — on any input, hence in particular on every input
on which it succeeds — ever calls the signature verifier `verify_params` or
invokes `validate_contract_key`; the key prefix only keys the engine. -/
theorem query_skips_signature_and_key_validation (w : World)
    (context gas_limit used_gas : Nat) (contract msg : List Nat) :
    ((query w context gas_limit used_gas contract msg).trace.any
      Event.isVerifyParams = false) ∧
    ((query w context gas_limit used_gas contract msg).trace.any
      Event.isValidateContractKey = false) := by
  unfold query
  dsimp only
  (repeat' split) <;> exact ⟨rfl, rfl⟩

/-- C6: the V010 → V016 env projection used by `env_to_bytes` preserves
`block.height`, `block.chain_id` and the `contract.address` string, sets
`contract.code_hash` to the V010 `contract_code_hash`, and maps `block.time`
(seconds) through `Timestamp.from_seconds`, which multiplies by 10^9. -/
theorem env_projection_v010_to_v016_fields :
    (∀ e : EnvV010,
      env_to_contract_env .V016 e = .v016 (envV010toV016 e) ∧
      (envV010toV016 e).block.height = e.block.height ∧
      (envV010toV016 e).block.chain_id = e.block.chain_id ∧
      (envV010toV016 e).contract.address = e.contract.address ∧
      (envV010toV016 e).contract.code_hash = e.contract_code_hash ∧
      (envV010toV016 e).block.time = Timestamp.from_seconds e.block.time) ∧
    (∀ s : Nat, Timestamp.from_seconds s = ⟨s * 1000000000⟩) :=
  ⟨fun _ => ⟨rfl, rfl, rfl, rfl, rfl, rfl⟩, fun _ => rfl⟩

/-- C7: a `query` msg shorter than `CONTRACT_KEY_LENGTH` yields
`FailedFunctionCall` without constructing an Engine and with `used_gas`
untouched; a msg at least that long has exactly its first
`CONTRACT_KEY_LENGTH` bytes split off as the contract key — any engine is
keyed with `msg.take CONTRACT_KEY_LENGTH` — and the remainder is the slice
handed to `SecretMessage::from_slice`. -/
theorem query_contract_key_prefix_split (w : World) (context gas_limit used_gas : Nat)
    (contract msg : List Nat) :
    (msg.length < CONTRACT_KEY_LENGTH →
      (query w context gas_limit used_gas contract msg).result = .error .FailedFunctionCall ∧
      (query w context gas_limit used_gas contract msg).trace.any Event.isStartEngine = false ∧
      (query w context gas_limit used_gas contract msg).usedGas = used_gas) ∧
    (CONTRACT_KEY_LENGTH ≤ msg.length →
      Event.parseSecretMsg (msg.drop CONTRACT_KEY_LENGTH) ∈
        (query w context gas_limit used_gas contract msg).trace ∧
      ∀ k, Event.startEngineEv k ∈ (query w context gas_limit used_gas contract msg).trace →
        k = msg.take CONTRACT_KEY_LENGTH) := by
  constructor
  · intro h
    unfold query
    dsimp only
    rw [if_pos h]
    simp [Event.isStartEngine]
  · intro h
    unfold query start_engine
    dsimp only
    rw [if_neg (by omega)]
    (repeat' split) <;>
      refine ⟨by simp, ?_⟩ <;> intro k hk <;> simp at hk <;> (try exact hk)

/-- C7 (witness): a 63-byte query msg is rejected as `FailedFunctionCall`
with no engine and `used_gas` still 7. -/
theorem query_contract_key_prefix_split_witness :
    (query Wok 0 100 7 [0] (List.replicate 63 0)).result = .error .FailedFunctionCall ∧
    (query Wok 0 100 7 [0] (List.replicate 63 0)).trace.any Event.isStartEngine = false ∧
    (query Wok 0 100 7 [0] (List.replicate 63 0)).usedGas = 7 :=
  (query_contract_key_prefix_split Wok 0 100 7 [0] (List.replicate 63 0)).1 (by decide)

/-- C8: `handle` parses the same msg slice twice with
`SecretMessage::from_slice`; the parse is deterministic, so the two parses
yield equal values and `handle` agrees — in result and in the final
`used_gas` — with `handleSingleParse`, the variant that parses once and
reuses the result for verification, decryption and the engine's nonce and
user public key. -/
theorem handle_double_parse_refinement (w : World) (context gas_limit used_gas : Nat)
    (contract env msg sig_info : List Nat) :
    (handle w context gas_limit used_gas contract env msg sig_info).result =
      (handleSingleParse w context gas_limit used_gas contract env msg sig_info).result ∧
    (handle w context gas_limit used_gas contract env msg sig_info).usedGas =
      (handleSingleParse w context gas_limit used_gas contract env msg sig_info).usedGas ∧
    (∀ r1 r2 : Except EnclaveError SecretMessage,
      SecretMessage.from_slice msg = r1 → SecretMessage.from_slice msg = r2 → r1 = r2) := by
  refine ⟨?_, ?_, fun r1 r2 hr1 hr2 => hr1 ▸ hr2 ▸ rfl⟩ <;>
    (unfold handle handleSingleParse start_engine
     dsimp only
     (repeat' split) <;> simp_all)

/-- C8 (witness): at a concrete successful call, `handle` and the
single-parse variant return the same result, and the two parses of the same
64-byte msg yield the same value. -/
theorem handle_double_parse_refinement_witness :
    (handle Wok 0 100 7 [0] [0] msg64 [0]).result =
      (handleSingleParse Wok 0 100 7 [0] [0] msg64 [0]).result ∧
    (Except.ok ⟨List.replicate 32 0, List.replicate 32 0, []⟩ :
        Except EnclaveError SecretMessage) =
      Except.ok ⟨List.replicate 32 0, List.replicate 32 0, []⟩ :=
  ⟨(handle_double_parse_refinement Wok 0 100 7 [0] [0] msg64 [0]).1,
   (handle_double_parse_refinement Wok 0 100 7 [0] [0] msg64 [0]).2.2
     (Except.ok ⟨List.replicate 32 0, List.replicate 32 0, []⟩)
     (Except.ok ⟨List.replicate 32 0, List.replicate 32 0, []⟩) rfl rfl⟩

/-- C9: a `query` msg at least `CONTRACT_KEY_LENGTH` bytes long whose
remainder after the key prefix is shorter than the 64-byte `SecretMessage`
minimum passes the length guard and fails inside
`SecretMessage::from_slice` with the deserialization error kind — not with
`FailedFunctionCall` — after exactly the parse attempt on the remainder. -/
theorem query_short_remainder_deserialize_error (w : World)
    (context gas_limit used_gas : Nat) (contract msg : List Nat)
    (h1 : CONTRACT_KEY_LENGTH ≤ msg.length)
    (h2 : msg.length < CONTRACT_KEY_LENGTH + 64) :
    (query w context gas_limit used_gas contract msg).result = .error .FailedToDeserialize ∧
    (query w context gas_limit used_gas contract msg).result ≠ .error .FailedFunctionCall ∧
    (query w context gas_limit used_gas contract msg).trace =
      [.parseSecretMsg (msg.drop CONTRACT_KEY_LENGTH)] := by
  have hlen : (msg.drop CONTRACT_KEY_LENGTH).length < 64 := by
    simp only [List.length_drop, CONTRACT_KEY_LENGTH] at *
    omega
  have hfs : SecretMessage.from_slice (msg.drop CONTRACT_KEY_LENGTH) =
      .error .FailedToDeserialize := by
    unfold SecretMessage.from_slice
    rw [if_pos hlen]
  unfold query
  dsimp only
  rw [if_neg (by simp only [CONTRACT_KEY_LENGTH] at *; omega)]
  simp [hfs]

/-- C9 (witness): a 64-byte query msg (empty remainder after the key
prefix) passes the guard and fails deserialization. -/
theorem query_short_remainder_deserialize_error_witness :
    (query Wok 0 100 7 [0] msg64).result = .error .FailedToDeserialize ∧
    (query Wok 0 100 7 [0] msg64).result ≠ .error .FailedFunctionCall ∧
    (query Wok 0 100 7 [0] msg64).trace = [.parseSecretMsg (msg64.drop CONTRACT_KEY_LENGTH)] :=
  query_short_remainder_deserialize_error Wok 0 100 7 [0] msg64 (by decide) (by decide)

/-- C10: the env a V016 contract receives consists of exactly
`block.height`, `block.time`, `block.chain_id`, `contract.address` and
`contract.code_hash` of the (stamped) V010 env; the V010 message fields and
contract key are not carried over, so two V010 envs agreeing on those five
fields project to the same V016 env. -/
theorem env_v016_exact_fields :
    (∀ e : EnvV010, env_to_contract_env .V016 e = .v016
      { block := { height := e.block.height
                   time := Timestamp.from_seconds e.block.time
                   chain_id := e.block.chain_id }
        contract := { address := e.contract.address
                      code_hash := e.contract_code_hash } }) ∧
    (∀ e1 e2 : EnvV010, e1.block = e2.block → e1.contract.address = e2.contract.address →
      e1.contract_code_hash = e2.contract_code_hash →
      envV010toV016 e1 = envV010toV016 e2) := by
  constructor
  · intro e
    rfl
  · intro e1 e2 hb ha hh
    simp [envV010toV016, hb, ha, hh]

/-- C10 (witness): two concrete envs differing in `message` and
`contract_key` but agreeing on block, address and code hash project to the
same V016 env. -/
theorem env_v016_exact_fields_witness : envV010toV016 envOk = envV010toV016 envOk2 :=
  env_v016_exact_fields.2 envOk envOk2 rfl rfl rfl
